import Mathlib

/-!
# Verification of the pickle video-player core (shallow embedding)

This file embeds, as executable Lean definitions, the parts of the pickle
player relevant to its specification: the warp-control transform
(`src/warp_control.c`), the display presentation cycle and surface
negotiation (`src/display_output.c`), the decoded-frame release discipline
(`src/hw_decoder.c`), the GPU render path (`src/gpu_renderer.c`) and the
decode-drain retry loop of the playback loop (`src/pickle.c`).

C `float` values are modelled as rationals (`ℚ`); every arithmetic fact
proved here involves only values on which the C float computation is exact
(small dyadic constants, comparisons and clamping), so no rounding is
abstracted away where it matters.  C side effects (GL calls, sleeps) are
modelled as explicit effect traces; stateful code is modelled as explicit
state-passing functions.
-/

namespace Pickle

/-! ## Warp control (`src/warp_control.c`)

`warp_mode_t` from `warp_control.h`: CORNERS, MATRIX, PERSPECTIVE, KEYSTONE. -/

inductive WarpMode
  | corners
  | matrix
  | perspective
  | keystone
  deriving DecidableEq, Repr

/-- `corner_points_t`: four corner points, each an (x, y) pair. -/
structure CornerPoints where
  top_left_x : ℚ
  top_left_y : ℚ
  top_right_x : ℚ
  top_right_y : ℚ
  bottom_left_x : ℚ
  bottom_left_y : ℚ
  bottom_right_x : ℚ
  bottom_right_y : ℚ
  deriving DecidableEq, Repr

/-- `warp_params_t` (fields the implementation reads). -/
structure WarpParams where
  mode : WarpMode
  corners : CornerPoints
  keystone_h : ℚ
  keystone_v : ℚ
  scale_x : ℚ
  scale_y : ℚ
  deriving DecidableEq, Repr

/-- `warp_matrix_t`: a 4x4 matrix stored column-major as 16 floats plus a
dirty flag.  The 16 entries are modelled as a list of rationals. -/
structure WarpMatrix where
  matrix : List ℚ
  dirty : Bool
  deriving DecidableEq, Repr

/-- `matrix_identity` in `warp_control.c`: zero the 16 entries then set
indices 0, 5, 10, 15 to 1. -/
def matrix_identity : List ℚ :=
  [1, 0, 0, 0,
   0, 1, 0, 0,
   0, 0, 1, 0,
   0, 0, 0, 1]

/-- `init_default_params`: corner mode, corners at (±1, ±1), unit scale. -/
def init_default_params : WarpParams :=
  { mode := WarpMode.corners
    corners :=
      { top_left_x := -1, top_left_y := -1
        top_right_x := 1, top_right_y := -1
        bottom_left_x := -1, bottom_left_y := 1
        bottom_right_x := 1, bottom_right_y := 1 }
    keystone_h := 0
    keystone_v := 0
    scale_x := 1
    scale_y := 1 }

/-- `warp_control_corners_to_matrix`: identity matrix with the translation
entries (indices 12, 13) set to the centroid of the four corners; marks the
produced matrix dirty. -/
def warp_control_corners_to_matrix (c : CornerPoints) : WarpMatrix :=
  let center_x := (c.top_left_x + c.top_right_x + c.bottom_left_x + c.bottom_right_x) * (1/4)
  let center_y := (c.top_left_y + c.top_right_y + c.bottom_left_y + c.bottom_right_y) * (1/4)
  { matrix :=
      [1, 0, 0, 0,
       0, 1, 0, 0,
       0, 0, 1, 0,
       center_x, center_y, 0, 1]
    dirty := true }

/-- `warp_control_keystone_to_matrix`: identity with entry 1 set to
`h * 0.5` and entry 4 set to `v * 0.5`; marks the matrix dirty. -/
def warp_control_keystone_to_matrix (h v : ℚ) : WarpMatrix :=
  { matrix :=
      [1, h * (1/2), 0, 0,
       v * (1/2), 1, 0, 0,
       0, 0, 1, 0,
       0, 0, 0, 1]
    dirty := true }

/-- Outcome codes of the warp-control API (`WARP_CONTROL_OK` = 0,
`WARP_CONTROL_ERROR` = -1, `WARP_CONTROL_UPDATED` = 1). -/
inductive WarpResult
  | ok
  | error
  | updated
  deriving DecidableEq, Repr

/-- `struct warp_control_ctx` (the fields the modelled operations touch).
`renderer_matrix = none` models a NULL `renderer_ctx`; `some m` models a
configured renderer whose stored warp matrix is `m`. -/
structure WarpCtx where
  params : WarpParams
  step_size : ℚ
  selected_corner : Nat
  fine_mode : Bool
  stdin_configured : Bool
  matrix_dirty : Bool
  current_matrix : WarpMatrix
  renderer_matrix : Option WarpMatrix
  deriving DecidableEq, Repr

/-- `warp_control_create` followed by `warp_control_configure` with a live
renderer: default params, step size 0.01, identity matrix, dirty flag
raised, corner 0 selected. -/
def warp_control_create (renderer : Option WarpMatrix) : WarpCtx :=
  { params := init_default_params
    step_size := 1/100
    selected_corner := 0
    fine_mode := false
    stdin_configured := true
    matrix_dirty := true
    current_matrix := { matrix := matrix_identity, dirty := false }
    renderer_matrix := renderer }

/-- `gpu_renderer_set_warp_matrix` (`src/gpu_renderer.c`): fails on a NULL
renderer, otherwise copies the matrix and clears its dirty flag. -/
def gpu_renderer_set_warp_matrix (renderer : Option WarpMatrix) (m : WarpMatrix) :
    Option WarpMatrix × Bool :=
  match renderer with
  | none => (none, false)
  | some _ => (some { m with dirty := false }, true)

/-- `update_matrix`: when the context's dirty flag is clear, return OK
without recomputing anything; otherwise recompute the matrix from the
current mode, push it to the renderer, and clear the dirty flag only if the
renderer accepted it.  The returned `Bool` records whether a recomputation
took place. -/
def update_matrix (s : WarpCtx) : WarpResult × WarpCtx × Bool :=
  if !s.matrix_dirty then
    (WarpResult.ok, s, false)
  else
    let m : WarpMatrix :=
      match s.params.mode with
      | WarpMode.corners => warp_control_corners_to_matrix s.params.corners
      | WarpMode.keystone =>
          warp_control_keystone_to_matrix s.params.keystone_h s.params.keystone_v
      | _ => { s.current_matrix with matrix := matrix_identity }
    let s1 := { s with current_matrix := m }
    match gpu_renderer_set_warp_matrix s1.renderer_matrix m with
    | (r, true) => (WarpResult.ok, { s1 with renderer_matrix := r, matrix_dirty := false }, true)
    | (_, false) => (WarpResult.error, s1, true)

/-- `warp_control_reset`: restore default parameters, raise the dirty flag,
then run `update_matrix`. -/
def warp_control_reset (s : WarpCtx) : WarpResult × WarpCtx × Bool :=
  update_matrix { s with params := init_default_params, matrix_dirty := true }

/-- The keyboard events handled by `process_keyboard` that mutate the warp
adjustment state: the four arrow keys, corner selection `1`-`4`, the fine
toggle `F`, and reset `R`. -/
inductive WarpKey
  | arrowUp
  | arrowDown
  | arrowLeft
  | arrowRight
  | selectCorner (n : Fin 4)
  | toggleFine
  | reset
  deriving DecidableEq, Repr

/-- `fmaxf(-2.0f, fminf(2.0f, v))`. -/
def clampCorner (v : ℚ) : ℚ := max (-2) (min 2 v)

/-- Move coordinate `which` (false = x, true = y) of corner `n` by `d`,
then clamp both coordinates of that corner to [-2, 2], exactly as the
arrow-key branch of `process_keyboard` does. -/
def adjustCorner (c : CornerPoints) (n : Nat) (which : Bool) (d : ℚ) : CornerPoints :=
  match n, which with
  | 0, false => { c with top_left_x := clampCorner (c.top_left_x + d),
                         top_left_y := clampCorner c.top_left_y }
  | 0, true  => { c with top_left_x := clampCorner c.top_left_x,
                         top_left_y := clampCorner (c.top_left_y + d) }
  | 1, false => { c with top_right_x := clampCorner (c.top_right_x + d),
                         top_right_y := clampCorner c.top_right_y }
  | 1, true  => { c with top_right_x := clampCorner c.top_right_x,
                         top_right_y := clampCorner (c.top_right_y + d) }
  | 2, false => { c with bottom_left_x := clampCorner (c.bottom_left_x + d),
                         bottom_left_y := clampCorner c.bottom_left_y }
  | 2, true  => { c with bottom_left_x := clampCorner c.bottom_left_x,
                         bottom_left_y := clampCorner (c.bottom_left_y + d) }
  | 3, false => { c with bottom_right_x := clampCorner (c.bottom_right_x + d),
                         bottom_right_y := clampCorner c.bottom_right_y }
  | 3, true  => { c with bottom_right_x := clampCorner c.bottom_right_x,
                         bottom_right_y := clampCorner (c.bottom_right_y + d) }
  | _, _ => c

/-- One case arm of `process_keyboard`.  Returns the new context and
whether it counted as an update (`updated = 1`). -/
def applyWarpKey (s : WarpCtx) (k : WarpKey) : WarpCtx × Bool :=
  let step : ℚ := if s.fine_mode then s.step_size * (1/10) else s.step_size
  let moved : Bool → ℚ → WarpCtx := fun which d =>
    let p := { s.params with corners := adjustCorner s.params.corners s.selected_corner which d }
    { s with params := p, matrix_dirty := true }
  match k with
  | WarpKey.arrowUp => (moved true (-step), true)
  | WarpKey.arrowDown => (moved true step, true)
  | WarpKey.arrowLeft => (moved false (-step), true)
  | WarpKey.arrowRight => (moved false step, true)
  | WarpKey.selectCorner n => ({ s with selected_corner := n.val }, false)
  | WarpKey.toggleFine => ({ s with fine_mode := !s.fine_mode }, false)
  | WarpKey.reset =>
      ({ s with params := init_default_params, matrix_dirty := true }, true)

/-- The `while (read(...) > 0)` loop of `process_keyboard` over a list of
pending key events; returns `WARP_CONTROL_UPDATED` when some event mutated
a parameter, `WARP_CONTROL_OK` otherwise. -/
def process_keyboard (s : WarpCtx) (keys : List WarpKey) : WarpResult × WarpCtx :=
  let final := keys.foldl (fun (acc : WarpCtx × Bool) k =>
    let (s', u) := applyWarpKey acc.1 k
    (s', acc.2 || u)) (s, false)
  (if final.2 then WarpResult.updated else WarpResult.ok, final.1)

/-- `warp_control_process_input`: drain pending keyboard events (when stdin
is configured), then run `update_matrix`. -/
def warp_control_process_input (s : WarpCtx) (keys : List WarpKey) :
    WarpResult × WarpCtx × Bool :=
  let afterKeys := if s.stdin_configured then (process_keyboard s keys).2 else s
  update_matrix afterKeys

/-- The corner-coordinate invariant: every coordinate of every corner lies
in [-2, 2]. -/
def CornersInRange (c : CornerPoints) : Prop :=
  (-2 ≤ c.top_left_x ∧ c.top_left_x ≤ 2) ∧
  (-2 ≤ c.top_left_y ∧ c.top_left_y ≤ 2) ∧
  (-2 ≤ c.top_right_x ∧ c.top_right_x ≤ 2) ∧
  (-2 ≤ c.top_right_y ∧ c.top_right_y ≤ 2) ∧
  (-2 ≤ c.bottom_left_x ∧ c.bottom_left_x ≤ 2) ∧
  (-2 ≤ c.bottom_left_y ∧ c.bottom_left_y ≤ 2) ∧
  (-2 ≤ c.bottom_right_x ∧ c.bottom_right_x ≤ 2) ∧
  (-2 ≤ c.bottom_right_y ∧ c.bottom_right_y ≤ 2)

instance (c : CornerPoints) : Decidable (CornersInRange c) := by
  unfold CornersInRange; infer_instance

/-- Apply a sequence of keyboard events. -/
def applyWarpKeys (s : WarpCtx) (keys : List WarpKey) : WarpCtx :=
  keys.foldl (fun s k => (applyWarpKey s k).1) s


/-! ## Hardware decoder frames (`src/hw_decoder.c`) -/

/-- `decoded_frame_t` from `hw_decoder.h`: picture dimensions, pixel
format tag, timestamp, the three DMABUF plane file descriptors with their
offsets and pitches, and the held AVFrame reference (modelled as a Bool
recording whether the reference is live). -/
structure DecodedFrame where
  width : Int
  height : Int
  format : Int
  timestamp_us : Int
  dmabuf_fd : List Int
  num_planes : Nat
  offsets : List Nat
  pitches : List Nat
  av_frame : Bool
  deriving DecidableEq, Repr

/-- The `for (i = 0; i < num_planes; i++) dmabuf_fd[i] = -1` loop of
`hw_decoder_release_frame`: overwrite the first `n` descriptors with -1. -/
def clearFds : Nat → List Int → List Int
  | 0, l => l
  | _ + 1, [] => []
  | n + 1, _ :: t => -1 :: clearFds n t

/-- `hw_decoder_release_frame`: drop the AVFrame reference if one is held
(the `if (frame->av_frame)` guard), clear the first `num_planes` DMABUF
descriptors, and zero the plane count.  The C function returns `void` and
has no error or assertion path, which the Lean type (a total state
transformer) mirrors; the NULL-context/NULL-frame guards are excluded by
typing. -/
def hw_decoder_release_frame (f : DecodedFrame) : DecodedFrame :=
  let f1 := if f.av_frame then { f with av_frame := false } else f
  { f1 with dmabuf_fd := clearFds f1.num_planes f1.dmabuf_fd, num_planes := 0 }

/-! ## Display presentation cycle (`src/display_output.c`) -/

inductive DisplayResult
  | ok
  | error
  deriving DecidableEq, Repr

/-- `struct display_output_ctx` (the fields `display_output_present_frame`
touches): the configured flag, the one-time `mode_set` latch, and the two
presentation statistics counters. -/
structure DisplayCtx where
  configured : Bool
  mode_set : Bool
  frames_presented : Nat
  total_present_time_us : Nat
  deriving DecidableEq, Repr

/-- Outcomes of the external calls one `display_output_present_frame`
invocation makes (EGL buffer swap, GBM front-buffer lock, `drmModeAddFB`,
`drmModeSetCrtc`) plus the elapsed wall-clock time of the call. -/
structure PresentEnv where
  swap_ok : Bool
  lock_front_ok : Bool
  add_fb_ok : Bool
  set_crtc_ok : Bool
  elapsed_us : Nat
  deriving DecidableEq, Repr

/-- `display_output_present_frame`: fail on an unconfigured context; swap
EGL buffers (fail on swap failure); when the mode is not yet set, lock the
front buffer, add a framebuffer and program the CRTC — each failure
returning an error before the statistics are touched — and latch
`mode_set`; finally increment `frames_presented` and accumulate the call's
elapsed time.  The returned `Bool` records whether the one-time
scanout bind (framebuffer added and CRTC programmed) happened during this
call. -/
def display_output_present_frame (s : DisplayCtx) (e : PresentEnv) :
    DisplayResult × DisplayCtx × Bool :=
  if !s.configured then (DisplayResult.error, s, false)
  else if !e.swap_ok then (DisplayResult.error, s, false)
  else if s.mode_set then
    (DisplayResult.ok,
      { s with frames_presented := s.frames_presented + 1,
               total_present_time_us := s.total_present_time_us + e.elapsed_us }, false)
  else if !e.lock_front_ok then (DisplayResult.error, s, false)
  else if !e.add_fb_ok then (DisplayResult.error, s, false)
  else if !e.set_crtc_ok then (DisplayResult.error, s, false)
  else
    (DisplayResult.ok,
      { s with mode_set := true,
               frames_presented := s.frames_presented + 1,
               total_present_time_us := s.total_present_time_us + e.elapsed_us }, true)

/-- Run a sequence of `presentFrame` calls, collecting for each call its
result and whether the scanout bind happened in it. -/
def presentTrace (s : DisplayCtx) : List PresentEnv → List (DisplayResult × Bool) × DisplayCtx
  | [] => ([], s)
  | e :: es =>
      let step := display_output_present_frame s e
      let rest := presentTrace step.2.1 es
      ((step.1, step.2.2) :: rest.1, rest.2)

/-- The first-present-only-bind property of a call trace: before the first
successful call no bind happens, the first successful call performs the
bind, and no call after it ever binds again. -/
def BindAtFirstSuccess : List (DisplayResult × Bool) → Prop
  | [] => True
  | (r, b) :: t =>
      (b = true ↔ r = DisplayResult.ok) ∧
        if r = DisplayResult.ok then (∀ p ∈ t, p.2 = false) else BindAtFirstSuccess t

/-! ## Display mode selection (`src/display_output.c`, `find_display_configuration`) -/

/-- One advertised `drmModeModeInfo`: resolution, refresh rate, and whether
the mode carries the `DRM_MODE_TYPE_PREFERRED` flag. -/
structure DrmMode where
  hdisplay : Nat
  vdisplay : Nat
  vrefresh : Nat
  preferred : Bool
  deriving DecidableEq, Repr

/-- The requested display configuration (0 meaning unrequested). -/
structure DisplayConfig where
  preferred_width : Nat
  preferred_height : Nat
  preferred_refresh : Nat
  deriving DecidableEq, Repr

/-- The exact-match test of the mode loop: a resolution was requested,
the candidate matches it, and — when a refresh rate was requested — the
candidate's refresh matches too. -/
def modeExactMatch (cfg : DisplayConfig) (c : DrmMode) : Bool :=
  0 < cfg.preferred_width && 0 < cfg.preferred_height &&
  c.hdisplay == cfg.preferred_width && c.vdisplay == cfg.preferred_height &&
  (cfg.preferred_refresh == 0 || c.vrefresh == cfg.preferred_refresh)

/-- The `for` loop of `find_display_configuration` over the remaining
candidates, with `current` the mode selected so far: a preferred candidate
always overwrites `current`, and additionally breaks the loop when no
explicit resolution was requested; an exact match breaks the loop
immediately. -/
def find_mode_loop (cfg : DisplayConfig) (current : DrmMode) : List DrmMode → DrmMode
  | [] => current
  | c :: rest =>
      if c.preferred && (cfg.preferred_width == 0 || cfg.preferred_height == 0) then c
      else if modeExactMatch cfg c then c
      else find_mode_loop cfg (if c.preferred then c else current) rest

/-- `find_display_configuration` (mode-selection part): default to the
first advertised mode, then scan all modes as the C loop does.  Returns
`none` only for an empty mode list (the connector is only accepted with
`count_modes > 0`). -/
def find_display_configuration (cfg : DisplayConfig) : List DrmMode → Option DrmMode
  | [] => none
  | m :: ms => some (find_mode_loop cfg m (m :: ms))

/-! ## EGL / GBM format negotiation (`src/display_output.c`, `init_egl`) -/

/-- GBM fourcc format codes from `gbm.h`. -/
def GBM_FORMAT_XRGB8888 : Nat := 0x34325258

def GBM_FORMAT_ARGB8888 : Nat := 0x34325241

def GBM_FORMAT_RGB565 : Nat := 0x36314752

/-- One EGL framebuffer configuration advertised by the GPU context:
channel sizes, window-surface support, OpenGL-ES2 renderability, and the
native visual id (a GBM fourcc code). -/
structure EglConfig where
  red : Nat
  green : Nat
  blue : Nat
  alpha : Nat
  supports_window : Bool
  renderable_es2 : Bool
  native_visual_id : Nat
  deriving DecidableEq, Repr

/-- An `eglChooseConfig` attribute list as used by `init_egl`: requested
minimum channel sizes and an optional native-visual-id constraint
(`EGL_SURFACE_TYPE EGL_WINDOW_BIT` and `EGL_RENDERABLE_TYPE
EGL_OPENGL_ES2_BIT` are requested by all three attempts). -/
structure EglConfigRequest where
  red : Nat
  green : Nat
  blue : Nat
  alpha : Nat
  native_visual : Option Nat
  deriving DecidableEq, Repr

/-- Attribute matching: channel sizes are minimums, window surface and ES2
renderability are required, and the native visual id must equal the
requested one when the request constrains it. -/
def eglConfigMatches (req : EglConfigRequest) (c : EglConfig) : Bool :=
  req.red ≤ c.red && req.green ≤ c.green && req.blue ≤ c.blue && req.alpha ≤ c.alpha &&
  c.supports_window && c.renderable_es2 &&
  (match req.native_visual with
   | none => true
   | some v => c.native_visual_id == v)

/-- `eglChooseConfig`, modelled as returning the first advertised
configuration satisfying the attribute list (or none). -/
def eglChooseConfig (env : List EglConfig) (req : EglConfigRequest) : Option EglConfig :=
  env.find? (eglConfigMatches req)

/-- `config_attribs1`: opaque XRGB8888 — 8 bits per colour channel, zero
alpha, native visual id constrained to `GBM_FORMAT_XRGB8888`. -/
def config_attribs1 : EglConfigRequest :=
  { red := 8, green := 8, blue := 8, alpha := 0, native_visual := some GBM_FORMAT_XRGB8888 }

/-- `config_attribs2`: alpha-carrying ARGB8888 — 8 bits per channel
including alpha, native visual id constrained to `GBM_FORMAT_ARGB8888`. -/
def config_attribs2 : EglConfigRequest :=
  { red := 8, green := 8, blue := 8, alpha := 8, native_visual := some GBM_FORMAT_ARGB8888 }

/-- `config_attribs3`: generic colour-capable configuration with no
native-visual-id constraint (and no alpha requirement). -/
def config_attribs3 : EglConfigRequest :=
  { red := 8, green := 8, blue := 8, alpha := 0, native_visual := none }

/-- The three-step fallback search of `init_egl`: approach 1 (XRGB8888),
else approach 2 (ARGB8888), else approach 3 (no visual constraint,
defaulting the GBM format to ARGB8888). -/
def chooseEglConfigWithFallbacks (env : List EglConfig) : Option (EglConfig × Nat) :=
  match eglChooseConfig env config_attribs1 with
  | some c => some (c, GBM_FORMAT_XRGB8888)
  | none =>
      match eglChooseConfig env config_attribs2 with
      | some c => some (c, GBM_FORMAT_ARGB8888)
      | none =>
          match eglChooseConfig env config_attribs3 with
          | some c => some (c, GBM_FORMAT_ARGB8888)
          | none => none

/-- `gbm_surface_create` succeeds exactly when the display advertises the
requested format (the display's supported-format set is the environment
parameter `displayFormats`). -/
def gbm_surface_create (displayFormats : List Nat) (fmt : Nat) : Bool :=
  displayFormats.contains fmt

/-- The GBM-surface recreation step of `init_egl`: recreate with the
EGL-matched format, and on failure retry the fixed fallback list
XRGB8888, ARGB8888, RGB565. -/
def recreate_gbm_surface (displayFormats : List Nat) (fmt : Nat) : Option Nat :=
  if gbm_surface_create displayFormats fmt then some fmt
  else [GBM_FORMAT_XRGB8888, GBM_FORMAT_ARGB8888, GBM_FORMAT_RGB565].find?
         (gbm_surface_create displayFormats)

/-- The format-negotiation core of `init_egl`: run the three-step config
search, then override the GBM format with the chosen config's native
visual id (the `eglGetConfigAttrib(EGL_NATIVE_VISUAL_ID)` readback), then
recreate the GBM backing surface with that exact format, falling back to
the common-format list.  Returns the chosen EGL config and the final GBM
surface format.  (EGL context and window-surface creation, which follow
in the C code, have no effect on the negotiated format.) -/
def init_egl (env : List EglConfig) (displayFormats : List Nat) : Option (EglConfig × Nat) :=
  match chooseEglConfigWithFallbacks env with
  | none => none
  | some (c, _) =>
      match recreate_gbm_surface displayFormats c.native_visual_id with
      | none => none
      | some f => some (c, f)

/-- The alpha-carrying 8-8-8-8 RGB configuration. -/
def argb8888Config : EglConfig :=
  { red := 8, green := 8, blue := 8, alpha := 8,
    supports_window := true, renderable_es2 := true,
    native_visual_id := GBM_FORMAT_ARGB8888 }

/-! ## GPU renderer (`src/gpu_renderer.c`) -/

inductive GpuResult
  | ok
  | error
  deriving DecidableEq, Repr

/-- Observable GL/EGL side effects of one `gpu_renderer_render_frame`
call.  `clearColorPattern c` records setting the clear colour to the
animated fallback pattern derived (through `sin`) from cycle value `c`;
`createEglImage` and `importTexture` are the zero-copy GPU import path
(`eglCreateImageKHR` / `glEGLImageTargetTexture2DOES`). -/
inductive GlEffect
  | clearBuffer
  | useProgram (p : Nat)
  | viewport (w h : Int)
  | clearColorPattern (cycle : ℚ)
  | swapBuffers
  | createEglImage (fd : Int)
  | importTexture (fd : Int)
  | bindTexture (unit : Nat)
  | setUniforms
  | drawElements
  | deleteTexture
  deriving DecidableEq, Repr

/-- `AV_PIX_FMT_NV12` from FFmpeg's `pixfmt.h`. -/
def AV_PIX_FMT_NV12 : Int := 23

/-- `struct gpu_renderer_ctx` (the fields `gpu_renderer_render_frame`
touches): video dimensions, the static `color_cycle` animation variable of
the fallback-pattern branch, the warp matrix and colour-correction
configuration, shader program ids, and the render statistics. -/
structure RendererCtx where
  video_width : Int
  video_height : Int
  color_cycle : ℚ
  warp_matrix : WarpMatrix
  brightness : ℚ
  contrast : ℚ
  saturation : ℚ
  shader_program_yuv420 : Nat
  shader_program_nv12 : Nat
  current_program : Nat
  frames_rendered : Nat
  total_render_time_us : Nat
  deriving DecidableEq, Repr

/-- The `color_cycle += 0.02f; if (color_cycle > 1.0f) color_cycle = 0.0f`
animation step. -/
def advanceColorCycle (c : ℚ) : ℚ :=
  let c1 := c + 1/50
  if 1 < c1 then 0 else c1

/-- `gpu_renderer_import_dmabuf`: fails on a negative descriptor, and
otherwise creates an EGL image from the DMABUF and imports it as a GL
texture (`importOk` models whether `eglCreateImageKHR` succeeds in the
environment). -/
def gpu_renderer_import_dmabuf (importOk : Bool) (fd : Int) : Option (List GlEffect) :=
  if fd < 0 then none
  else if importOk then some [GlEffect.createEglImage fd, GlEffect.importTexture fd]
  else none

/-- `gpu_renderer_render_frame`: clear, then — when `dmabuf_fd[0]` is
negative (placeholder / test-pattern case) — select the fixed pipeline,
set the viewport, advance the colour cycle, clear to the animated fallback
colour, swap, and return OK without touching statistics; otherwise import
the first plane's DMABUF, select the shader program by chroma layout
(NV12 vs separate-plane), bind the imported texture, set the uniforms,
draw the quad, delete the transient textures, swap, and update the render
statistics. -/
def gpu_renderer_render_frame (importOk : Bool) (s : RendererCtx) (f : DecodedFrame)
    (render_time_us : Nat) : GpuResult × RendererCtx × List GlEffect :=
  if f.dmabuf_fd.headI < 0 then
    let c1 := advanceColorCycle s.color_cycle
    (GpuResult.ok, { s with color_cycle := c1 },
     [GlEffect.clearBuffer, GlEffect.useProgram 0,
      GlEffect.viewport s.video_width s.video_height,
      GlEffect.clearColorPattern c1, GlEffect.clearBuffer, GlEffect.swapBuffers])
  else
    match gpu_renderer_import_dmabuf importOk f.dmabuf_fd.headI with
    | none => (GpuResult.error, s, [GlEffect.clearBuffer])
    | some impEffs =>
        let prog := if f.format == AV_PIX_FMT_NV12 then s.shader_program_nv12
                    else s.shader_program_yuv420
        (GpuResult.ok,
         { s with current_program := prog,
                  frames_rendered := s.frames_rendered + 1,
                  total_render_time_us := s.total_render_time_us + render_time_us },
         [GlEffect.clearBuffer] ++ impEffs ++
           [GlEffect.useProgram prog, GlEffect.bindTexture 0, GlEffect.setUniforms,
            GlEffect.drawElements, GlEffect.deleteTexture, GlEffect.swapBuffers])

/-! ## Decode-drain retry loop (`src/pickle.c`, `run_playback_loop`) -/

/-- Result codes of `hw_decoder_get_frame` (`HW_DECODER_OK`, `_EAGAIN`,
`_EOF`, `_ERROR`). -/
inductive DecoderResult
  | ok
  | eagain
  | eof
  | error
  deriving DecidableEq, Repr

/-- `int max_attempts = (packet_count <= 10) ? 20 : 5`. -/
def max_attempts (packet_count : Nat) : Nat :=
  if packet_count ≤ 10 then 20 else 5

/-- `usleep(packet_count <= 5 ? 20000 : 5000)`: the sleep duration in
microseconds between drain attempts. -/
def drain_sleep_us (packet_count : Nat) : Nat :=
  if packet_count ≤ 5 then 20000 else 5000

/-- The `do { ret = hw_decoder_get_frame(...); ... } while (attempts <
max_attempts && ret == HW_DECODER_EAGAIN)` drain loop.  `responses k` is
the decoder's answer to the k-th `hw_decoder_get_frame` call; `attempts`
mirrors the C counter; `countdown` is the structural-recursion image of
the loop guard, maintained equal to `max_attempts - attempts - 1` so that
`countdown = 0` exactly when the incremented counter reaches
`max_attempts` (at which point the loop exits without sleeping).  Returns
the final `ret`, the final `attempts` value, and the list of sleeps
performed (each entry a duration in microseconds). -/
def drain_go (pc : Nat) (responses : Nat → DecoderResult) :
    Nat → Nat → DecoderResult × Nat × List Nat
  | attempts, countdown =>
      let ret := responses attempts
      if ret = DecoderResult.ok then (ret, attempts, [])
      else if ret ≠ DecoderResult.eagain then (ret, attempts, [])
      else
        match countdown with
        | 0 => (ret, attempts + 1, [])
        | countdown' + 1 =>
            let rec_result := drain_go pc responses (attempts + 1) countdown'
            (rec_result.1, rec_result.2.1, drain_sleep_us pc :: rec_result.2.2)

/-- The complete drain phase for the `packet_count`-th submitted input:
run the do-while with `attempts = 0` and the loop bound
`max_attempts packet_count`. -/
def run_drain (pc : Nat) (responses : Nat → DecoderResult) : DecoderResult × Nat × List Nat :=
  drain_go pc responses 0 (max_attempts pc - 1)

/-- A decoder that never has a frame ready. -/
def allEagain : Nat → DecoderResult := fun _ => DecoderResult.eagain


/-- A concrete renderer context used as a test input. -/
def test_renderer_ctx : RendererCtx :=
  { video_width := 1920, video_height := 1080, color_cycle := 0,
    warp_matrix := { matrix := matrix_identity, dirty := false },
    brightness := 1, contrast := 1, saturation := 1,
    shader_program_yuv420 := 3, shader_program_nv12 := 4, current_program := 0,
    frames_rendered := 0, total_render_time_us := 0 }

/-- A concrete placeholder Buffer Descriptor: zero plane handles and a
negative first DMABUF descriptor, as `extract_dmabuf_from_frame` produces
for non-exportable decoder memory. -/
def test_placeholder_frame : DecodedFrame :=
  { width := 1920, height := 1080, format := 0, timestamp_us := 0,
    dmabuf_fd := [-1, -1, -1], num_planes := 0,
    offsets := [0, 0, 0], pitches := [0, 0, 0], av_frame := false }

/-! ## Theorems -/

/-- Both clamped coordinates land in [-2, 2]. -/
lemma clampCorner_mem (v : ℚ) : -2 ≤ clampCorner v ∧ clampCorner v ≤ 2 :=
  ⟨le_max_left _ _, max_le (by norm_num) (min_le_left _ _)⟩

/-- An arrow-key adjustment keeps every corner coordinate in [-2, 2]. -/
lemma adjustCorner_preserves (c : CornerPoints) (n : Nat) (which : Bool) (d : ℚ)
    (h : CornersInRange c) : CornersInRange (adjustCorner c n which d) := by
  have hm := clampCorner_mem
  unfold CornersInRange at h ⊢
  obtain ⟨h1, h2, h3, h4, h5, h6, h7, h8⟩ := h
  rcases n with _ | _ | _ | _ | n
  · cases which
    · exact ⟨hm _, hm _, h3, h4, h5, h6, h7, h8⟩
    · exact ⟨hm _, hm _, h3, h4, h5, h6, h7, h8⟩
  · cases which
    · exact ⟨h1, h2, hm _, hm _, h5, h6, h7, h8⟩
    · exact ⟨h1, h2, hm _, hm _, h5, h6, h7, h8⟩
  · cases which
    · exact ⟨h1, h2, h3, h4, hm _, hm _, h7, h8⟩
    · exact ⟨h1, h2, h3, h4, hm _, hm _, h7, h8⟩
  · cases which
    · exact ⟨h1, h2, h3, h4, h5, h6, hm _, hm _⟩
    · exact ⟨h1, h2, h3, h4, h5, h6, hm _, hm _⟩
  · cases which
    · exact ⟨h1, h2, h3, h4, h5, h6, h7, h8⟩
    · exact ⟨h1, h2, h3, h4, h5, h6, h7, h8⟩

/-- Every single keyboard event preserves the corner-coordinate invariant. -/
lemma applyWarpKey_preserves (s : WarpCtx) (k : WarpKey)
    (h : CornersInRange s.params.corners) :
    CornersInRange (applyWarpKey s k).1.params.corners := by
  cases k with
  | arrowUp => exact adjustCorner_preserves _ _ _ _ h
  | arrowDown => exact adjustCorner_preserves _ _ _ _ h
  | arrowLeft => exact adjustCorner_preserves _ _ _ _ h
  | arrowRight => exact adjustCorner_preserves _ _ _ _ h
  | selectCorner n => exact h
  | toggleFine => exact h
  | reset => norm_num [applyWarpKey, CornersInRange, init_default_params]

/-- C9: every warp corner coordinate stays within [-2.0, 2.0] across any
sequence of keyboard adjustment events: each arrow-key step is clamped to
that range (before the dirty flag is raised), and the remaining keyboard
events either leave the corners untouched or reset them to the in-range
defaults, so no sequence of adjustments can move a corner outside. -/
theorem warp_corner_coords_bounded (s : WarpCtx) (keys : List WarpKey)
    (h : CornersInRange s.params.corners) :
    CornersInRange (applyWarpKeys s keys).params.corners := by
  induction keys generalizing s with
  | nil => exact h
  | cons k keys ih =>
      have hstep := applyWarpKey_preserves s k h
      simpa [applyWarpKeys] using ih _ hstep

/-- Witness for C9 at the freshly created context and a concrete key
sequence. -/
theorem warp_corner_coords_bounded_witness :
    CornersInRange (warp_control_create none).params.corners ∧
      CornersInRange (applyWarpKeys (warp_control_create none)
        [WarpKey.arrowUp, WarpKey.arrowLeft, WarpKey.toggleFine,
         WarpKey.arrowDown, WarpKey.reset, WarpKey.arrowRight]).params.corners :=
  have h : CornersInRange (warp_control_create none).params.corners := by
    norm_num [CornersInRange, warp_control_create, init_default_params]
  ⟨h, warp_corner_coords_bounded _ _ h⟩

/-- After a successful `update_matrix`, the context dirty flag is clear. -/
lemma update_matrix_ok_clears_dirty (s s₁ : WarpCtx) (b : Bool)
    (h : update_matrix s = (WarpResult.ok, s₁, b)) : s₁.matrix_dirty = false := by
  unfold update_matrix at h
  by_cases hd : s.matrix_dirty
  · simp only [hd, Bool.not_true, Bool.false_eq_true, if_false] at h
    rcases hr : s.renderer_matrix with _ | m
    · simp [gpu_renderer_set_warp_matrix, hr] at h
    · simp only [gpu_renderer_set_warp_matrix, hr, Prod.mk.injEq] at h
      obtain ⟨-, h2, -⟩ := h
      simp [← h2]
  · simp only [hd] at h
    simp only [Bool.not_false, if_true, Prod.mk.injEq] at h
    obtain ⟨-, h2, -⟩ := h
    rw [← h2]
    simpa using hd

/-- Running `update_matrix` on a context whose dirty flag is clear is a
complete no-op that recomputes nothing. -/
lemma update_matrix_clean (s : WarpCtx) (h : s.matrix_dirty = false) :
    update_matrix s = (WarpResult.ok, s, false) := by
  unfold update_matrix
  simp [h]

/-- Draining no keyboard events leaves `warp_control_process_input` equal
to a bare `update_matrix` call. -/
lemma process_input_nil (s : WarpCtx) :
    warp_control_process_input s [] = update_matrix s := by
  unfold warp_control_process_input process_keyboard
  simp

/-- C6: warp resolve is memoized and idempotent.  If a resolve call
(`update_matrix`, reached through `warp_control_process_input` with no
pending input events) succeeded, then a second resolve with no intervening
parameter mutation recomputes nothing (the recompute flag is `false`),
returns the bit-identical state — in particular the same 16 matrix entries
— and leaves the dirty flag cleared rather than re-raising it. -/
theorem warp_resolve_idempotent (s s₁ : WarpCtx) (b : Bool)
    (h : warp_control_process_input s [] = (WarpResult.ok, s₁, b)) :
    warp_control_process_input s₁ [] = (WarpResult.ok, s₁, false) ∧
      s₁.matrix_dirty = false := by
  rw [process_input_nil] at h
  have hclean := update_matrix_ok_clears_dirty s s₁ b h
  exact ⟨(process_input_nil s₁).trans (update_matrix_clean s₁ hclean), hclean⟩

/-- Witness for C6 at a freshly created and configured warp context. -/
theorem warp_resolve_idempotent_witness :
    warp_control_process_input
        (warp_control_process_input
          (warp_control_create (some { matrix := matrix_identity, dirty := false })) []).2.1 [] =
      (WarpResult.ok,
        (warp_control_process_input
          (warp_control_create (some { matrix := matrix_identity, dirty := false })) []).2.1,
        false) := by
  have hfst : (warp_control_process_input
      (warp_control_create (some { matrix := matrix_identity, dirty := false })) []).1 =
      WarpResult.ok := by
    simp [warp_control_process_input, process_keyboard, update_matrix,
      warp_control_create, gpu_renderer_set_warp_matrix]
  have h : warp_control_process_input
      (warp_control_create (some { matrix := matrix_identity, dirty := false })) [] =
      (WarpResult.ok,
        (warp_control_process_input
          (warp_control_create (some { matrix := matrix_identity, dirty := false })) []).2.1,
        (warp_control_process_input
          (warp_control_create (some { matrix := matrix_identity, dirty := false })) []).2.2) := by
    rw [← hfst]
  exact (warp_resolve_idempotent _ _ _ h).1

/-- C7: `reset()` followed by `resolve()` yields the 4x4 identity matrix.
`warp_control_reset` restores the default corner parameters and recomputes
the matrix in corner mode; the centroid of the default corners is (0, 0),
so the recomputed matrix (identity plus centroid translation) is exactly
the identity.  Holds whenever the warp control is attached to a renderer
(as `warp_control_configure` requires). -/
theorem warp_reset_resolve_identity (s : WarpCtx) (m0 : WarpMatrix)
    (h : s.renderer_matrix = some m0) :
    (warp_control_reset s).1 = WarpResult.ok ∧
      (warp_control_reset s).2.1.current_matrix.matrix = matrix_identity := by
  unfold warp_control_reset update_matrix
  have hc : warp_control_corners_to_matrix init_default_params.corners =
      { matrix := matrix_identity, dirty := true } := by
    simp [warp_control_corners_to_matrix, init_default_params, matrix_identity]
  simp [h, init_default_params, gpu_renderer_set_warp_matrix, hc,
    warp_control_corners_to_matrix, matrix_identity]

/-- Witness for C7 at a freshly created and configured warp context. -/
theorem warp_reset_resolve_identity_witness :
    (warp_control_reset
        (warp_control_create (some { matrix := matrix_identity, dirty := false }))).1 =
      WarpResult.ok ∧
    (warp_control_reset
        (warp_control_create (some { matrix := matrix_identity, dirty := false }))).2.1.current_matrix.matrix =
      matrix_identity :=
  warp_reset_resolve_identity _ { matrix := matrix_identity, dirty := false } rfl


/-- C3 counterexample: releasing a Buffer Descriptor a second time is
silently ignored, not treated as a loud failure.  At a concrete decoded
frame, the second `hw_decoder_release_frame` call is an exact no-op: the
state is unchanged and — as the embedding's total `DecodedFrame →
DecodedFrame` type mirrors the C `void` return — no error is reported and
no assertion fires, contradicting the claim that a double release fails
loudly. -/
theorem release_frame_double_release_silent_cex :
    hw_decoder_release_frame
        (hw_decoder_release_frame
          { width := 1920, height := 1080, format := 23, timestamp_us := 0,
            dmabuf_fd := [7, 8, -1], num_planes := 2,
            offsets := [0, 2073600, 0], pitches := [1920, 1920, 0], av_frame := true }) =
      hw_decoder_release_frame
        { width := 1920, height := 1080, format := 23, timestamp_us := 0,
          dmabuf_fd := [7, 8, -1], num_planes := 2,
          offsets := [0, 2073600, 0], pitches := [1920, 1920, 0], av_frame := true } := by
  decide

/-- C3 (amended): `hw_decoder_release_frame` is idempotent: releasing an
already-released descriptor (AVFrame reference gone, plane count zero) is
a silent no-op rather than a loudly-failing defect — the function drops
the AVFrame reference only when one is held, clears only the first
`num_planes` descriptors, and reports nothing. -/
theorem release_frame_idempotent (f : DecodedFrame) :
    hw_decoder_release_frame (hw_decoder_release_frame f) = hw_decoder_release_frame f := by
  rcases f with ⟨w, h, fmt, ts, fds, np, offs, ps, av⟩
  cases av <;> simp [hw_decoder_release_frame, clearFds]

/-- C10: presentation statistics are updated atomically with success.
Whenever `display_output_present_frame` returns an error — unconfigured
context, failed swap, failed front-buffer lock, failed framebuffer add or
failed CRTC set — the frames-presented counter and the accumulated
presentation time are left exactly as they were; on a successful call the
counter grows by exactly one and the call's elapsed time is added. -/
theorem present_frame_stats_atomic (s : DisplayCtx) (e : PresentEnv)
    (r : DisplayResult) (s' : DisplayCtx) (b : Bool)
    (h : display_output_present_frame s e = (r, s', b)) :
    (r = DisplayResult.error →
      s'.frames_presented = s.frames_presented ∧
        s'.total_present_time_us = s.total_present_time_us) ∧
    (r = DisplayResult.ok →
      s'.frames_presented = s.frames_presented + 1 ∧
        s'.total_present_time_us = s.total_present_time_us + e.elapsed_us) := by
  rcases s with ⟨conf, ms, fp, tot⟩
  rcases e with ⟨sw, lk, ab, sc, el⟩
  cases conf <;> cases ms <;> cases sw <;> cases lk <;> cases ab <;> cases sc <;>
    (simp only [display_output_present_frame, Bool.not_true, Bool.not_false,
        if_true, if_false, Prod.mk.injEq] at h
     obtain ⟨rfl, rfl, rfl⟩ := h
     refine ⟨fun hr => ?_, fun hr => ?_⟩ <;> simp_all)

/-- Witness for C10 at a configured, already-bound context with a
successful call environment: the counters move from (3, 93) to exactly
(3 + 1, 93 + 7). -/
theorem present_frame_stats_atomic_witness :
    ((DisplayResult.ok : DisplayResult) = DisplayResult.error → (4 : Nat) = 3 ∧ (100 : Nat) = 93) ∧
    ((DisplayResult.ok : DisplayResult) = DisplayResult.ok →
      (4 : Nat) = 3 + 1 ∧ (100 : Nat) = 93 + 7) :=
  present_frame_stats_atomic
    { configured := true, mode_set := true, frames_presented := 3, total_present_time_us := 93 }
    { swap_ok := true, lock_front_ok := true, add_fb_ok := true, set_crtc_ok := true,
      elapsed_us := 7 }
    DisplayResult.ok
    { configured := true, mode_set := true, frames_presented := 4, total_present_time_us := 100 }
    false
    (by decide)

/-- Every sleep performed by the drain loop has the duration selected by
the packet count, the number of sleeps is bounded by the countdown, and
against a decoder that always answers WOULD_BLOCK the loop runs to
exhaustion: final `attempts = attempts₀ + countdown + 1` with exactly
`countdown` sleeps. -/
lemma drain_go_spec (pc : Nat) (responses : Nat → DecoderResult) :
    ∀ countdown attempts,
      (∀ x ∈ (drain_go pc responses attempts countdown).2.2, x = drain_sleep_us pc) ∧
      (drain_go pc responses attempts countdown).2.2.length ≤ countdown ∧
      ((∀ k, responses k = DecoderResult.eagain) →
        drain_go pc responses attempts countdown =
          (DecoderResult.eagain, attempts + countdown + 1,
            List.replicate countdown (drain_sleep_us pc))) := by
  intro countdown
  induction countdown with
  | zero =>
      intro attempts
      refine ⟨?_, ?_, ?_⟩
      · intro x hx
        rcases hresp : responses attempts with _ | _ | _ | _ <;>
          simp [drain_go, hresp] at hx
      · rcases hresp : responses attempts with _ | _ | _ | _ <;>
          simp [drain_go, hresp]
      · intro hall
        simp [drain_go, hall attempts]
  | succ cd ih =>
      intro attempts
      obtain ⟨ih1, ih2, ih3⟩ := ih (attempts + 1)
      refine ⟨?_, ?_, ?_⟩
      · intro x hx
        rcases hresp : responses attempts with _ | _ | _ | _
        · simp [drain_go, hresp] at hx
        · simp [drain_go, hresp] at hx
          rcases hx with rfl | hx2
          · rfl
          · exact ih1 x hx2
        · simp [drain_go, hresp] at hx
        · simp [drain_go, hresp] at hx
      · rcases hresp : responses attempts with _ | _ | _ | _ <;>
          simp [drain_go, hresp] <;> omega
      · intro hall
        simp [drain_go, hall attempts, ih3 hall, List.replicate_succ, Prod.mk.injEq]
        all_goals omega

/-- C1 (amended): the drain retry loop after the `pc`-th submitted input
makes at most 20 `hw_decoder_get_frame` attempts for the first **10**
submitted inputs and at most 5 thereafter, sleeping between consecutive
attempts (never after the last) 20 ms for the first **5** inputs and 5 ms
for every input thereafter — so inputs 6 through 10 get up to 20 attempts
at 5 ms each.  Against a decoder that always answers WOULD_BLOCK, the
loop performs exactly the maximum number of attempts with one sleep
between each consecutive pair. -/
theorem drain_retry_policy (pc : Nat) (responses : Nat → DecoderResult) :
    (∀ x ∈ (run_drain pc responses).2.2, x = (if pc ≤ 5 then 20000 else 5000)) ∧
    (run_drain pc responses).2.2.length ≤ (if pc ≤ 10 then 20 else 5) - 1 ∧
    ((∀ k, responses k = DecoderResult.eagain) →
      run_drain pc responses =
        (DecoderResult.eagain, (if pc ≤ 10 then 20 else 5),
          List.replicate ((if pc ≤ 10 then 20 else 5) - 1)
            (if pc ≤ 5 then 20000 else 5000))) := by
  obtain ⟨h1, h2, h3⟩ := drain_go_spec pc responses (max_attempts pc - 1) 0
  refine ⟨fun x hx => ?_, ?_, fun hall => ?_⟩
  · rw [← drain_sleep_us]; exact h1 x hx
  · rw [show (if pc ≤ 10 then 20 else 5) - 1 = max_attempts pc - 1 from rfl]; exact h2
  · rw [run_drain, h3 hall]
    have hpos : 1 ≤ max_attempts pc := by unfold max_attempts; split <;> omega
    rw [show (if pc ≤ 10 then 20 else 5) = max_attempts pc from rfl,
        show (if pc ≤ 5 then 20000 else 5000) = drain_sleep_us pc from rfl,
        show 0 + (max_attempts pc - 1) + 1 = max_attempts pc from by omega]

/-- Witness for C1's amended theorem at packet count 7 against an
always-blocking decoder. -/
theorem drain_retry_policy_witness :
    (∀ x ∈ (run_drain 7 allEagain).2.2, x = (if 7 ≤ 5 then 20000 else 5000)) ∧
    (run_drain 7 allEagain).2.2.length ≤ (if 7 ≤ 10 then 20 else 5) - 1 ∧
    ((∀ k, allEagain k = DecoderResult.eagain) →
      run_drain 7 allEagain =
        (DecoderResult.eagain, (if 7 ≤ 10 then 20 else 5),
          List.replicate ((if 7 ≤ 10 then 20 else 5) - 1)
            (if 7 ≤ 5 then 20000 else 5000))) :=
  drain_retry_policy 7 allEagain

/-- C1 counterexample: for the 6th submitted input — an input *after the
first 5* — the code still makes 20 drain attempts (not at most 5 as the
claim's reference policy states), with 19 sleeps of 5000 µs between
them; the attempts bound switches at packet 10 while the sleep duration
switches at packet 5. -/
theorem drain_retry_policy_cex :
    run_drain 6 allEagain = (DecoderResult.eagain, 20, List.replicate 19 5000) ∧
      ¬((20 : Nat) ≤ 5) := by
  refine ⟨?_, by decide⟩
  decide


/-- Once the display mode has been set, a `presentFrame` call never binds
again and never clears the latch. -/
lemma present_after_mode_set (s : DisplayCtx) (e : PresentEnv) (h : s.mode_set = true) :
    (display_output_present_frame s e).2.2 = false ∧
      (display_output_present_frame s e).2.1.mode_set = true := by
  cases hc : s.configured <;> cases hs : e.swap_ok <;>
    simp [display_output_present_frame, h, hc, hs]

/-- After the mode latch is set, no call of the remaining trace performs
the scanout bind. -/
lemma trace_no_bind (s : DisplayCtx) (es : List PresentEnv) (h : s.mode_set = true) :
    ∀ p ∈ (presentTrace s es).1, p.2 = false := by
  induction es generalizing s with
  | nil => simp [presentTrace]
  | cons e es ih =>
      obtain ⟨hb, hm⟩ := present_after_mode_set s e h
      intro p hp
      simp only [presentTrace, List.mem_cons] at hp
      rcases hp with rfl | hp
      · exact hb
      · exact ih _ hm p hp

/-- With the mode latch still unset, one `presentFrame` call binds exactly
when it succeeds, latches the mode on success, and leaves the state
untouched on failure. -/
lemma present_mode_unset (s : DisplayCtx) (e : PresentEnv) (h : s.mode_set = false) :
    ((display_output_present_frame s e).2.2 = true ↔
        (display_output_present_frame s e).1 = DisplayResult.ok) ∧
      ((display_output_present_frame s e).1 = DisplayResult.ok →
        (display_output_present_frame s e).2.1.mode_set = true) ∧
      ((display_output_present_frame s e).1 ≠ DisplayResult.ok →
        (display_output_present_frame s e).2.1 = s) := by
  rcases e with ⟨sw, lk, ab, sc, el⟩
  cases hc : s.configured <;> cases sw <;> cases lk <;> cases ab <;> cases sc <;>
    simp [display_output_present_frame, h, hc]

/-- C2: first-present-only bind.  Starting from a configured pipeline that
has not yet bound the scanout engine, across any sequence of
`presentFrame` calls the scanout-binding side effect (framebuffer creation
from the visible backing buffer plus CRTC programming at the negotiated
mode) happens on exactly the first successful call: calls before it (all
failures) never bind, the first successful call binds, and no later call
binds again. -/
theorem present_first_success_binds (s : DisplayCtx) (es : List PresentEnv)
    (hc : s.configured = true) (h : s.mode_set = false) :
    BindAtFirstSuccess (presentTrace s es).1 := by
  induction es generalizing s with
  | nil => simp [presentTrace, BindAtFirstSuccess]
  | cons e es ih =>
      obtain ⟨hiff, hok, hnok⟩ := present_mode_unset s e h
      simp only [presentTrace, BindAtFirstSuccess]
      refine ⟨hiff, ?_⟩
      by_cases hr : (display_output_present_frame s e).1 = DisplayResult.ok
      · rw [if_pos hr]
        exact trace_no_bind _ _ (hok hr)
      · rw [if_neg hr, hnok hr]
        exact ih s hc h

/-- Witness for C2: a configured, unbound context over three calls — a
failed swap, then two successes; the bind happens on call 2 only. -/
theorem present_first_success_binds_witness :
    BindAtFirstSuccess (presentTrace
      { configured := true, mode_set := false, frames_presented := 0,
        total_present_time_us := 0 }
      [{ swap_ok := false, lock_front_ok := true, add_fb_ok := true, set_crtc_ok := true,
         elapsed_us := 3 },
       { swap_ok := true, lock_front_ok := true, add_fb_ok := true, set_crtc_ok := true,
         elapsed_us := 4 },
       { swap_ok := true, lock_front_ok := true, add_fb_ok := true, set_crtc_ok := true,
         elapsed_us := 5 }]).1 :=
  present_first_success_binds _ _ rfl rfl

/-- C4: format negotiation order.  When the GPU context advertises only
the alpha-carrying 8-8-8-8 layout (every EGL config is ARGB8888) and the
display accepts only ARGB8888 surfaces, step 1 (opaque XRGB8888) finds no
config, step 2 (ARGB8888) succeeds, and the negotiated configuration's
pixel format — after the native-visual-id readback and the GBM surface
recreation — equals the alpha-carrying ARGB8888 layout. -/
theorem format_negotiation_argb_only (env : List EglConfig) (hne : env ≠ [])
    (hall : ∀ c ∈ env, c = argb8888Config) :
    eglChooseConfig env config_attribs1 = none ∧
      eglChooseConfig env config_attribs2 = some argb8888Config ∧
      init_egl env [GBM_FORMAT_ARGB8888] = some (argb8888Config, GBM_FORMAT_ARGB8888) := by
  have h1 : eglChooseConfig env config_attribs1 = none := by
    rw [eglChooseConfig, List.find?_eq_none]
    intro x hx
    rw [hall x hx]
    decide
  have h2 : eglChooseConfig env config_attribs2 = some argb8888Config := by
    obtain ⟨c, t, rfl⟩ := List.exists_cons_of_ne_nil hne
    have hc := hall c (List.mem_cons_self c t)
    rw [eglChooseConfig, hc, List.find?_cons_of_pos _ (by decide)]
  refine ⟨h1, h2, ?_⟩
  simp only [init_egl, chooseEglConfigWithFallbacks, h1, h2]
  decide

/-- Witness for C4 at the one-config environment. -/
theorem format_negotiation_argb_only_witness :
    eglChooseConfig [argb8888Config] config_attribs1 = none ∧
      eglChooseConfig [argb8888Config] config_attribs2 = some argb8888Config ∧
      init_egl [argb8888Config] [GBM_FORMAT_ARGB8888] =
        some (argb8888Config, GBM_FORMAT_ARGB8888) :=
  format_negotiation_argb_only [argb8888Config] (by decide) (by decide)

/-- C8: placeholder safety.  On any Buffer Descriptor with zero plane
handles and a negative first DMABUF descriptor,
`gpu_renderer_render_frame` returns OK with exactly the fallback-pattern
effect trace — clear, fixed pipeline, viewport, animated clear colour,
clear, swap — mutating no renderer state except the colour-cycle
animation variable (statistics included), and the trace contains no EGL
image creation and no texture import. -/
theorem placeholder_render_safe (importOk : Bool) (s : RendererCtx) (f : DecodedFrame)
    (t : Nat) (hplanes : f.num_planes = 0) (hfd : f.dmabuf_fd.headI < 0) :
    gpu_renderer_render_frame importOk s f t =
      (GpuResult.ok,
        { s with color_cycle := advanceColorCycle s.color_cycle },
        [GlEffect.clearBuffer, GlEffect.useProgram 0,
         GlEffect.viewport s.video_width s.video_height,
         GlEffect.clearColorPattern (advanceColorCycle s.color_cycle),
         GlEffect.clearBuffer, GlEffect.swapBuffers]) ∧
      (∀ e ∈ (gpu_renderer_render_frame importOk s f t).2.2, ∀ fd,
        e ≠ GlEffect.createEglImage fd ∧ e ≠ GlEffect.importTexture fd) := by
  have heq : gpu_renderer_render_frame importOk s f t =
      (GpuResult.ok,
        { s with color_cycle := advanceColorCycle s.color_cycle },
        [GlEffect.clearBuffer, GlEffect.useProgram 0,
         GlEffect.viewport s.video_width s.video_height,
         GlEffect.clearColorPattern (advanceColorCycle s.color_cycle),
         GlEffect.clearBuffer, GlEffect.swapBuffers]) := by
    simp [gpu_renderer_render_frame, hfd]
  refine ⟨heq, ?_⟩
  intro e he fd
  rw [heq] at he
  simp only [List.mem_cons, List.not_mem_nil, or_false] at he
  rcases he with rfl | rfl | rfl | rfl | rfl | rfl <;> simp

/-- Witness for C8 at a concrete renderer context and placeholder frame. -/
theorem placeholder_render_safe_witness :
    gpu_renderer_render_frame true test_renderer_ctx test_placeholder_frame 9 =
      (GpuResult.ok,
        { test_renderer_ctx with
            color_cycle := advanceColorCycle test_renderer_ctx.color_cycle },
        [GlEffect.clearBuffer, GlEffect.useProgram 0,
         GlEffect.viewport test_renderer_ctx.video_width test_renderer_ctx.video_height,
         GlEffect.clearColorPattern (advanceColorCycle test_renderer_ctx.color_cycle),
         GlEffect.clearBuffer, GlEffect.swapBuffers]) ∧
      (∀ e ∈ (gpu_renderer_render_frame true test_renderer_ctx test_placeholder_frame 9).2.2,
        ∀ fd, e ≠ GlEffect.createEglImage fd ∧ e ≠ GlEffect.importTexture fd) :=
  placeholder_render_safe true test_renderer_ctx test_placeholder_frame 9
    (by decide) (by decide)


/-- With no explicit resolution requested, the mode loop returns the first
preferred candidate, or the running selection if none is preferred. -/
lemma find_mode_loop_nosize (cfg : DisplayConfig)
    (hsz : cfg.preferred_width = 0 ∨ cfg.preferred_height = 0) :
    ∀ (l : List DrmMode) (cur : DrmMode),
      find_mode_loop cfg cur l = (l.find? (fun m => m.preferred)).getD cur := by
  intro l
  induction l with
  | nil => intro cur; simp [find_mode_loop]
  | cons c rest ih =>
      intro cur
      have hm : modeExactMatch cfg c = false := by
        rcases hsz with hw | hh
        · simp [modeExactMatch, hw]
        · simp [modeExactMatch, hh]
      by_cases hp : c.preferred
      · rcases hsz with hw | hh
        · simp [find_mode_loop, List.find?_cons, hp, hw]
        · simp [find_mode_loop, List.find?_cons, hp, hh]
      · simp [find_mode_loop, List.find?_cons, hp, hm, ih]

/-- With an explicit resolution requested, the mode loop returns the first
exact match; failing that, the last preferred candidate, or the running
selection if none is preferred. -/
lemma find_mode_loop_size (cfg : DisplayConfig)
    (hw : 0 < cfg.preferred_width) (hh : 0 < cfg.preferred_height) :
    ∀ (l : List DrmMode) (cur : DrmMode),
      find_mode_loop cfg cur l =
        match l.find? (modeExactMatch cfg) with
        | some c => c
        | none => (l.reverse.find? (fun m => m.preferred)).getD cur := by
  intro l
  induction l with
  | nil => intro cur; simp [find_mode_loop]
  | cons c rest ih =>
      intro cur
      have hno : (c.preferred && (cfg.preferred_width == 0 || cfg.preferred_height == 0)) =
          false := by
        have h1 : (cfg.preferred_width == 0) = false := by
          simp; omega
        have h2 : (cfg.preferred_height == 0) = false := by
          simp; omega
        simp [h1, h2]
      by_cases hm : modeExactMatch cfg c
      · simp [find_mode_loop, hno, hm, List.find?_cons]
      · have hstep : find_mode_loop cfg cur (c :: rest) =
            find_mode_loop cfg (if c.preferred then c else cur) rest := by
          simp [find_mode_loop, hno, hm]
        rw [hstep, ih]
        have hskip : (c :: rest).find? (modeExactMatch cfg) = rest.find? (modeExactMatch cfg) :=
          List.find?_cons_of_neg _ (by simp [hm])
        rw [hskip]
        cases hfind : rest.find? (modeExactMatch cfg) with
        | some d => simp
        | none =>
            simp only [List.reverse_cons, List.find?_append]
            cases hfp : rest.reverse.find? (fun m => m.preferred) with
            | some x => simp [Option.or]
            | none =>
                cases hp : c.preferred <;> simp [List.find?, hp, Option.or]

/-- C5 (amended): mode selection returns — when no explicit resolution was
requested — the first advertised mode marked preferred (or the first
advertised mode when none is marked); otherwise the first advertised mode
exactly matching the requested width and height (and the requested
refresh rate, when one was given); otherwise the **last** advertised mode
marked preferred, falling back to the first advertised mode only when no
mode is marked preferred. -/
theorem mode_selection_rule (cfg : DisplayConfig) (m : DrmMode) (ms : List DrmMode) :
    find_display_configuration cfg (m :: ms) =
      some (if 0 < cfg.preferred_width ∧ 0 < cfg.preferred_height then
              match (m :: ms).find? (modeExactMatch cfg) with
              | some c => c
              | none => ((m :: ms).reverse.find? (fun x => x.preferred)).getD m
            else
              ((m :: ms).find? (fun x => x.preferred)).getD m) := by
  by_cases hsz : 0 < cfg.preferred_width ∧ 0 < cfg.preferred_height
  · rw [find_display_configuration, find_mode_loop_size cfg hsz.1 hsz.2 (m :: ms) m,
      if_pos hsz]
  · have hz : cfg.preferred_width = 0 ∨ cfg.preferred_height = 0 := by omega
    rw [find_display_configuration, find_mode_loop_nosize cfg hz (m :: ms) m, if_neg hsz]

/-- C5 counterexample: an explicit 1280x720 resolution is requested, no
advertised mode matches it, and a mode marked preferred exists later in
the list — the code returns that preferred 1920x1080 mode, not the first
advertised mode (640x480) the claim's fallback names. -/
theorem mode_selection_fallback_cex :
    find_display_configuration
        { preferred_width := 1280, preferred_height := 720, preferred_refresh := 0 }
        [{ hdisplay := 640, vdisplay := 480, vrefresh := 60, preferred := false },
         { hdisplay := 1920, vdisplay := 1080, vrefresh := 60, preferred := true }] =
      some { hdisplay := 1920, vdisplay := 1080, vrefresh := 60, preferred := true } ∧
    [({ hdisplay := 640, vdisplay := 480, vrefresh := 60, preferred := false } : DrmMode),
     { hdisplay := 1920, vdisplay := 1080, vrefresh := 60, preferred := true }].find?
        (modeExactMatch
          { preferred_width := 1280, preferred_height := 720, preferred_refresh := 0 }) =
      none ∧
    ({ hdisplay := 1920, vdisplay := 1080, vrefresh := 60, preferred := true } : DrmMode) ≠
      { hdisplay := 640, vdisplay := 480, vrefresh := 60, preferred := false } := by
  decide

end Pickle
